import Mathlib

/-!
Verification development for the DogBot repository
(`io_controller.py`, `utility.py`, `config.py`).

The Python source is shallowly embedded: classes become structures, methods
become functions on those structures, Python dicts become insertion-ordered
association lists, numeric values are modelled exactly over `ℚ` (Python float
rounding is outside the model), and raised exceptions become `Except` errors,
paired with the state a raising method leaves behind where mutation precedes
the raise.  Side effects issued to the RPIO driver collaborator are reified
as explicit effect values.
-/

deriving instance DecidableEq for Except

namespace DogBot

/-- Python exception values raised by the embedded code.  The constructor
records the exception class and its message. -/
inductive PyErr where
  | valueError (msg : String)
  | attributeError (msg : String)
  | runtimeError (msg : String)
  | typeError (msg : String)
  | recursionError (msg : String)
deriving DecidableEq, Repr

/-- GPIO direction constants `RPIO.IN` / `RPIO.OUT`. -/
inductive PinMode where
  | input
  | output
deriving DecidableEq, Repr

/-- Side effect issued to the RPIO driver by `utility.claim_pin`:
`RPIO.setup(pin, mode)` (utility.py line 22). -/
inductive PinEffect where
  | setup (pin : Nat) (mode : PinMode)
deriving DecidableEq, Repr

/-- Python dict assignment `d[k] = v` on an insertion-ordered association
list: if the key is present its value is updated in place (keeping its
position, as CPython dicts do; dict keys are unique so the first occurrence
is the only one), otherwise the pair is appended. -/
def dictInsert {κ α : Type} [BEq κ] (k : κ) (v : α) : List (κ × α) → List (κ × α)
  | [] => [(k, v)]
  | p :: t => if p.1 == k then (k, v) :: t else p :: dictInsert k v t

/-- `config.Config` (config.py): the fields read and written by the code
under verification.  `used_pins` maps a pin number to the comment stored for
its claim; `reserved_channels` is the DMA-channel reservation list. -/
structure Config where
  used_pins : List (Nat × String)
  echo : Bool
  reserved_channels : List Nat
deriving DecidableEq, Repr

/-- `utility.claim_pin` (utility.py lines 8-23), with its own declared
parameter order `(pin, config, io_type, comment)`.  `RPIO.IN` is rendered as
the token "RPIO.IN".  On success the pair holds the updated config and the
`RPIO.setup` side effect; the raised `AttributeError` on a doubly claimed pin
leaves the config unchanged (the caller keeps the old value). -/
def claim_pin (pin : Nat) (config : Config) (io_type : String) (comment : String) :
    Except PyErr (Config × PinEffect) :=
  if (config.used_pins.lookup pin).isSome then
    .error (.attributeError ("pin " ++ toString pin ++ " already claimed"))
  else
    .ok ({ config with used_pins := dictInsert pin comment config.used_pins },
      PinEffect.setup pin
        (if io_type = "in" ∨ io_type = "IN" ∨ io_type = "RPIO.IN" then PinMode.input
         else PinMode.output))

/-- Models the CPython arity check performed when `ABCServo.__init__`
(io_controller.py line 29) is invoked: it declares 5 positional parameters
(`self, controller, name, pin, channel`).  The argument is the number of
positional arguments supplied, counting the implicitly bound `self`.
`ContinousServo.__init__` (line 130) calls
`super().__init__(self, controller, name, pin, channel)`, supplying 6
(the bound `self` plus 5 explicit arguments), so the call raises
`TypeError` before any attribute of the instance is assigned. -/
def abcServoInitCall (positionalArgs : Nat) : Except PyErr Unit :=
  if positionalArgs = 5 then .ok ()
  else .error (.typeError "init takes 5 positional arguments but 6 were given")

/-- The attribute record of a hypothetical `Servo` instance (io_controller.py
lines 47-124), carrying the attributes its method bodies read: the identity
fields from `ABCServo.__init__` plus `range` (line 85), `reverse` (line 87)
and `angle` (the line 88 assignment).  There is deliberately no sorted-bounds
field: the line 86 assignment `self.pulse = sorted(pulse)` targets the
class's setterless `pulse` property and raises, so the bounds are never
stored anywhere (see `Servo.init`).  No such instance is ever actually
constructed; the record is only the carrier on which the method bodies are
analysed. -/
structure Servo where
  name : String
  pin : Nat
  range : ℚ
  reverse : Bool
  angle : ℚ
deriving DecidableEq, Repr

/-- `Servo.__init__` (lines 82-88).  Line 86 `self.pulse = sorted(pulse)`
assigns to `Servo.pulse`, which is a getter-only `@property` of the class
(lines 112-124); a property is a data descriptor, so CPython routes the
instance assignment to the descriptor and raises `AttributeError`.
Construction therefore always fails, and in particular line 88's
`self.angle = 0` never executes: no `Servo` instance ever exists. -/
def Servo.init (name : String) (pin : Nat) (range_of_motion : ℚ)
    (pulse : ℚ × ℚ) (reverse : Bool) : Except PyErr Servo :=
  .error (.attributeError "property pulse of Servo object has no setter")

/-- The `Servo.pulse` property (lines 112-124).  Line 119 evaluates
`max(self.pulse) - min(self.pulse)`, and `self.pulse` resolves to this very
property (the instance assignment failed in `__init__`, and a data descriptor
cannot be shadowed by an instance attribute anyway), so the getter recurses
unboundedly and CPython raises `RecursionError`; the pulse formula written on
lines 117-124 is never computed. -/
def Servo.pulseVal (s : Servo) : Except PyErr ℚ :=
  .error (.recursionError "maximum recursion depth exceeded")

/-- `Servo.set` (lines 90-101) on a hypothetical instance: it validates
`0 < angle < self.range`, raising `ValueError` with the instance unchanged;
otherwise line 100 stores the angle (a plain attribute write, not rolled back
by a later exception) and line 101 calls `update`, whose guard
`if self.pulse is not None` (line 39) reads the self-referential `pulse`
property and raises `RecursionError` before any driver push.  The result
pairs the raised value with the instance state left behind; no call ever
returns successfully. -/
def Servo.set (s : Servo) (angle : ℚ) : Except PyErr Servo × Servo :=
  if ¬(0 < angle ∧ angle < s.range) then
    (.error (.valueError "angle must be between 0 and range"), s)
  else
    (.error (.recursionError "maximum recursion depth exceeded"),
      { s with angle := angle })

/-- `Servo.increment` (lines 103-110): `self.set(self.angle + change)`. -/
def Servo.increment (s : Servo) (change : ℚ) : Except PyErr Servo × Servo :=
  s.set (s.angle + change)

/-- `ContinousServo` (sic, io_controller.py lines 127-146).  Only `reverse`
and `speed` are ever assigned by its `__init__` (lines 131-132); the `pulse`
bounds argument is never stored, and the `pulse` property (lines 142-146)
reads `min(self.pulse)` / `max(self.pulse)`, which is the property itself, so
no pulse value is definable from the stored state. -/
structure ContinousServo where
  reverse : Bool
  speed : ℚ
deriving DecidableEq, Repr

/-- `ContinousServo.__init__` (lines 129-132).  Line 130 calls
`super().__init__(self, controller, name, pin, channel)`: the explicit `self`
shifts every argument and gives `ABCServo.__init__` 6 positional arguments
for its 5 parameters, so CPython raises `TypeError` before lines 131-132 run
and before the `pulse` argument could be stored anywhere. -/
def ContinousServo.init (name : String) (pin : Nat) (pulse : ℚ × ℚ)
    (reverse : Bool) : Except PyErr ContinousServo :=
  match abcServoInitCall 6 with
  | .error e => .error e
  | .ok _ => .ok { reverse := reverse, speed := 0 }

/-- `ContinousServo.set` (lines 134-137): validates `-1 < speed < 1` and
stores the speed (no driver push happens in this method). -/
def ContinousServo.set (s : ContinousServo) (speed : ℚ) :
    Except PyErr ContinousServo :=
  if ¬(-1 < speed ∧ speed < 1) then
    .error (.valueError "speed must be between -1 and 1")
  else .ok { s with speed := speed }

/-- `ContinousServo.increment` (lines 139-140). -/
def ContinousServo.increment (s : ContinousServo) (change : ℚ) :
    Except PyErr ContinousServo :=
  s.set (s.speed + change)

/-- `LED` (io_controller.py lines 149-167).  `channel` is the DMA channel id
handed over by `OutputController.new_led`. -/
structure LED where
  name : String
  pin : Nat
  channel : Nat
  brightness : ℚ
deriving DecidableEq, Repr

/-- `LED.__init__` (lines 151-155): brightness starts at 0. -/
def LED.init (name : String) (pin : Nat) (channel : Nat) : LED :=
  { name := name, pin := pin, channel := channel, brightness := 0 }

/-- `LED.set` (lines 157-160): validates `0 < brightness < 100` and stores
the brightness. -/
def LED.set (l : LED) (brightness : ℚ) : Except PyErr LED :=
  if ¬(0 < brightness ∧ brightness < 100) then
    .error (.valueError "brightness must be between 0 and 100")
  else .ok { l with brightness := brightness }

/-- An `RPIO.PWM.Servo(channel, update_cycle)` driver object as constructed
by `OutputController.new_servo_channel` (io_controller.py line 229); its
constructor parameters are `(dma_channel, subcycle_time_us)`. -/
structure RPIOServo where
  channel : Nat
  subcycle_time_us : Option Nat
deriving DecidableEq, Repr

/-- The mutable state of an `OutputController` (io_controller.py lines
172-184).  `update_channels` maps an update cycle (with `none` for Python
`None`, the key used by the `new_led` path) to a DMA channel id;
`channel_servos` maps a channel id to its `RPIO.PWM.Servo` object; `servos`
and `leds` are the name-keyed actuator registries.  The `actuators` dict is
declared on line 181 but never read or written, and is omitted. -/
structure OCState where
  update_channels : List (Option Nat × Nat)
  channel_servos : List (Nat × RPIOServo)
  servos : List (String × Servo)
  leds : List (String × LED)
deriving DecidableEq, Repr

/-- The state after `OutputController.__init__`: all maps empty. -/
def ocInit : OCState := ⟨[], [], [], []⟩

/-- The availability test of the list comprehension in
`OutputController.get_dma_channel` (lines 246-248):
`x not in self.config.reserved_channels and x not in self.channel_servos`.
Note that "in use" is judged by membership in `channel_servos`, not by the
bindings recorded in `update_channels`. -/
def dmaFree (cfg : Config) (st : OCState) (x : Nat) : Bool :=
  decide (x ∉ cfg.reserved_channels ∧ st.channel_servos.lookup x = none)

/-- `OutputController.get_dma_channel` (lines 245-252): the first element of
`[x for x in range(15) if x not in reserved and x not in channel_servos]`,
or `None` when the list is empty. -/
def get_dma_channel (cfg : Config) (st : OCState) : Option Nat :=
  (((List.range 15).filter (dmaFree cfg st))).head?

/-- `OutputController.new_dma_channel` (lines 233-243): optionally warns when
`update_cycle` is already bound (a console side effect when `config.echo`,
not modelled), picks a fresh channel via `get_dma_channel` when no explicit
`channel` is supplied (raising `RuntimeError` if none is available), then
binds `update_channels[update_cycle] = channel`. -/
def new_dma_channel (cfg : Config) (st : OCState) (update_cycle : Option Nat)
    (channel : Option Nat) : Except PyErr (Nat × OCState) :=
  match channel with
  | some c =>
      .ok (c, { st with update_channels := dictInsert update_cycle c st.update_channels })
  | none =>
      match get_dma_channel cfg st with
      | none => .error (.runtimeError "no available dma channel")
      | some c =>
          .ok (c, { st with update_channels := dictInsert update_cycle c st.update_channels })

/-- `OutputController.new_servo_channel` (lines 227-231): allocates/binds a
DMA channel, wraps it in `RPIO.PWM.Servo(channel, update_cycle)`, records it
in `channel_servos` and returns the driver object. -/
def new_servo_channel (cfg : Config) (st : OCState) (update_cycle : Option Nat)
    (channel : Option Nat) : Except PyErr (RPIOServo × OCState) :=
  match new_dma_channel cfg st update_cycle channel with
  | .error e => .error e
  | .ok (c, st1) =>
      .ok (⟨c, update_cycle⟩,
        { st1 with channel_servos := dictInsert c ⟨c, update_cycle⟩ st1.channel_servos })

/-- The `try` body of `OutputController.get_servo_channel` (lines 214-218):
`channel_servos[update_channels[update_cycle]]`, with
`update_channels[list(update_channels.keys())[0]]` when `update_cycle` is
`None`.  A `KeyError`/`IndexError` anywhere yields `none`. -/
def servo_lookup (st : OCState) (update_cycle : Option Nat) : Option RPIOServo :=
  match update_cycle with
  | some u =>
      match st.update_channels.lookup (some u) with
      | some ch => st.channel_servos.lookup ch
      | none => none
  | none =>
      match st.update_channels.head? with
      | some kv =>
          match st.update_channels.lookup kv.1 with
          | some ch => st.channel_servos.lookup ch
          | none => none
      | none => none

/-- `OutputController.get_servo_channel` (lines 213-225): returns the
registered channel servo for `update_cycle` when the `try` lookup succeeds;
on `KeyError`/`IndexError` it allocates a new servo channel unless
`update_cycle` is itself a key of `channel_servos`, in which case it raises
the `AttributeError` for the bookkeeping inconsistency (Python `None` is
never a `channel_servos` key, so the `None` case always reallocates). -/
def get_servo_channel (cfg : Config) (st : OCState) (update_cycle : Option Nat) :
    Except PyErr (RPIOServo × OCState) :=
  match servo_lookup st update_cycle with
  | some sv => .ok (sv, st)
  | none =>
      match update_cycle with
      | some u =>
          if (st.channel_servos.lookup u).isSome then
            .error (.attributeError "inconsistency between update_channels and channel_servos")
          else new_servo_channel cfg st (some u) none
      | none => new_servo_channel cfg st none none

/-- The `AttributeError` raised in real execution by the `utility.claim_pin`
calls on io_controller.py lines 189, 197 and 208.  These call sites pass
`(pin, RPIO.OUT, self.config, comment)` while the function signature is
`(pin, config, io_type, comment)` (utility.py line 8), so inside `claim_pin`
the parameter `config` is bound to the integer constant `RPIO.OUT` and the
test `pin in config.used_pins` raises `AttributeError`. -/
def claimPinCrash : PyErr := .attributeError "int object has no attribute used_pins"

/-- `OutputController.new_servo` (lines 186-193).  The sequence is: resolve
the channel for `update` (mutating the channel maps), then call
`utility.claim_pin` with the misordered arguments, which raises; the `Servo`
construction and the registry insertion on line 192 are unreachable.  The
result pairs the raised/returned value with the controller state left behind
(exceptions do not roll back the channel-map mutations). -/
def new_servo (cfg : Config) (st : OCState) (name : String) (pin : Nat)
    (update : Nat) (range_of_motion : ℚ) (pulse : ℚ × ℚ) (reverse : Bool) :
    Except PyErr Servo × OCState :=
  match get_servo_channel cfg st (some update) with
  | .error e => (.error e, st)
  | .ok (_, st1) => (.error claimPinCrash, st1)

/-- `OutputController.new_continuous_servo` (lines 195-201): resolves a
channel with `get_servo_channel()` (update cycle `None`), then crashes in the
misordered `claim_pin` call exactly as `new_servo` does. -/
def new_continuous_servo (cfg : Config) (st : OCState) (name : String)
    (pin : Nat) (pulse : ℚ × ℚ) (reverse : Bool) :
    Except PyErr ContinousServo × OCState :=
  match get_servo_channel cfg st none with
  | .error e => (.error e, st)
  | .ok (_, st1) => (.error claimPinCrash, st1)

/-- `OutputController.new_led` (lines 203-211): when `update_channels` is
non-empty the LED reuses the channel bound to the first key (no state
change); otherwise `new_dma_channel()` allocates a fresh channel bound to the
key `None`, without registering it in `channel_servos`.  The subsequent
misordered `claim_pin` call raises as in `new_servo`, leaving the channel-map
mutation in place; the `LED` construction and registry insertion on line 210
are unreachable. -/
def new_led (cfg : Config) (st : OCState) (name : String) (pin : Nat) :
    Except PyErr LED × OCState :=
  match st.update_channels.head? with
  | some _ => (.error claimPinCrash, st)
  | none =>
      match new_dma_channel cfg st none none with
      | .error e => (.error e, st)
      | .ok (_, st1) => (.error claimPinCrash, st1)

/-- The registry insertion of io_controller.py line 192,
`self.servos['name'] = servo`: the key is the literal string "name", not the
`name` argument of `new_servo` (line 210 has the same bug for `leds`). -/
def servosInsertLine (st : OCState) (servo : Servo) : OCState :=
  { st with servos := dictInsert "name" servo st.servos }

/-- Folding channel resolution over a list of update cycles, as a sequence of
`new_servo`-style `get_servo_channel` requests (used to state exhaustion). -/
def allocCycles (cfg : Config) (st : OCState) (cycles : List Nat) :
    Except PyErr OCState :=
  match cycles with
  | [] => .ok st
  | u :: rest =>
      match get_servo_channel cfg st (some u) with
      | .error e => .error e
      | .ok (_, st') => allocCycles cfg st' rest

/-- The states of an `OutputController` reachable through its public actuator
constructors (`new_servo`, `new_continuous_servo`, `new_led`), starting from
the freshly initialised controller.  Each constructor contributes whatever
state its call leaves behind, whether it returns or raises. -/
inductive Reach (cfg : Config) : OCState → Prop where
  | init : Reach cfg ocInit
  | servoStep (st : OCState) (name : String) (pin update : Nat) (rom : ℚ)
      (pb : ℚ × ℚ) (rev : Bool) : Reach cfg st →
      Reach cfg (new_servo cfg st name pin update rom pb rev).2
  | continuousStep (st : OCState) (name : String) (pin : Nat) (pb : ℚ × ℚ)
      (rev : Bool) : Reach cfg st →
      Reach cfg (new_continuous_servo cfg st name pin pb rev).2
  | ledStep (st : OCState) (name : String) (pin : Nat) : Reach cfg st →
      Reach cfg (new_led cfg st name pin).2

/-- The channel-bookkeeping invariant: every channel bound to a genuine
(non-`None`) update cycle is registered in `channel_servos`, and every
registered channel servo records its own channel id. -/
def ChanInv (st : OCState) : Prop :=
  (∀ u c, st.update_channels.lookup (some u) = some c →
      ∃ sv, st.channel_servos.lookup c = some sv) ∧
  (∀ c sv, st.channel_servos.lookup c = some sv → sv.channel = c)

/-- Shared concrete configuration: empty claim table, echo off, no reserved
channels. -/
def cfg0 : Config := ⟨[], false, []⟩

/-- Concrete configuration with reserved channels 0 and 1. -/
def cfg2 : Config := ⟨[], false, [0, 1]⟩

/-- The concrete controller state after one `new_servo` call with update
cycle 20000 on a fresh controller under `cfg0`. -/
def st1 : OCState := ⟨[(some 20000, 0)], [(0, ⟨0, some 20000⟩)], [], []⟩

/-- The concrete controller state after 13 `get_servo_channel` requests for
the distinct update cycles 1000..1012 under `cfg2`: channels 2..14 are all
allocated. -/
def st13 : OCState :=
  { update_channels := (List.range 13).map (fun i => (some (1000 + i), 2 + i)),
    channel_servos := (List.range 13).map (fun i => (2 + i, ⟨2 + i, some (1000 + i)⟩)),
    servos := [], leds := [] }

/-! ### Helper lemmas -/

theorem beqFalseComm {κ : Type} [BEq κ] [LawfulBEq κ] {a b : κ}
    (h : (a == b) = false) : (b == a) = false := by
  rcases hba : b == a with _ | _
  · rfl
  · have hab : b = a := eq_of_beq hba
    subst hab
    simp at h

theorem dictInsert_lookup_self {κ α : Type} [BEq κ] [LawfulBEq κ] (k : κ)
    (v : α) (l : List (κ × α)) : (dictInsert k v l).lookup k = some v := by
  induction l with
  | nil => simp [dictInsert]
  | cons p t ih =>
      rcases hp : p.1 == k with _ | _
      · rw [dictInsert, if_neg (by simp [hp])]
        rcases p with ⟨pk, pv⟩
        rw [List.lookup_cons]
        rw [show (k == pk) = false from beqFalseComm hp]
        exact ih
      · rw [dictInsert, if_pos hp]
        simp [List.lookup_cons]

theorem dictInsert_lookup_ne {κ α : Type} [BEq κ] [LawfulBEq κ] (k k' : κ)
    (v : α) (l : List (κ × α)) (hne : (k' == k) = false) :
    (dictInsert k v l).lookup k' = l.lookup k' := by
  induction l with
  | nil =>
      rw [show dictInsert k v ([] : List (κ × α)) = [(k, v)] from rfl,
        List.lookup_cons, hne]
  | cons p t ih =>
      rcases p with ⟨pk, pv⟩
      rcases hp : pk == k with _ | _
      · rw [dictInsert]
        rw [if_neg (by simp [hp])]
        rw [List.lookup_cons, List.lookup_cons]
        rcases hk : k' == pk with _ | _
        · exact ih
        · rfl
      · rw [dictInsert]
        rw [if_pos hp]
        rw [List.lookup_cons, List.lookup_cons]
        have hpk : pk = k := eq_of_beq hp
        subst hpk
        rw [hne]

/-- The head of `(List.range n).filter p` is the least number below `n`
satisfying `p`. -/
theorem filter_range_head (n : Nat) (p : Nat → Bool) (c : Nat)
    (h : ((List.range n).filter p).head? = some c) :
    p c = true ∧ c < n ∧ ∀ k, k < c → p k = false := by
  induction n with
  | zero => simp [List.range_zero] at h
  | succ m ih =>
      rw [List.range_succ, List.filter_append] at h
      rcases hf : (List.range m).filter p with _ | ⟨a, t⟩
      · rw [hf, List.nil_append] at h
        rcases hpn : p m with _ | _
        · rw [List.filter_cons_of_neg (by simp [hpn]), List.filter_nil] at h
          simp at h
        · rw [List.filter_cons_of_pos hpn, List.filter_nil, List.head?_cons,
            Option.some.injEq] at h
          subst h
          refine ⟨hpn, Nat.lt_succ_self m, fun k hk => ?_⟩
          have hkmem : k ∈ List.range m := List.mem_range.mpr hk
          have hnil := List.filter_eq_nil_iff.mp hf k hkmem
          simpa using hnil
      · rw [hf, List.cons_append, List.head?_cons, Option.some.injEq] at h
        subst h
        obtain ⟨h1, h2, h3⟩ := ih (by rw [hf, List.head?_cons])
        exact ⟨h1, Nat.lt_succ_of_lt h2, h3⟩

/-- A successful automatic channel pick satisfies the availability predicate
and is minimal among the ids below 15. -/
theorem get_dma_channel_spec (cfg : Config) (st : OCState) (c : Nat)
    (h : get_dma_channel cfg st = some c) :
    c < 15 ∧ c ∉ cfg.reserved_channels ∧ st.channel_servos.lookup c = none ∧
      ∀ k, k < c → k ∈ cfg.reserved_channels ∨ (st.channel_servos.lookup k).isSome := by
  obtain ⟨h1, h2, h3⟩ := filter_range_head 15 (dmaFree cfg st) c h
  rw [dmaFree, decide_eq_true_iff] at h1
  refine ⟨h2, h1.1, h1.2, fun k hk => ?_⟩
  have hfk := h3 k hk
  rw [dmaFree] at hfk
  have hnot := of_decide_eq_false hfk
  by_cases hres : k ∈ cfg.reserved_channels
  · exact Or.inl hres
  · right
    rcases hlk : st.channel_servos.lookup k with _ | sv
    · exact absurd ⟨hres, hlk⟩ hnot
    · rfl

/-- The automatic channel pick fails exactly when every id below 15 is
reserved or registered in `channel_servos`. -/
theorem get_dma_channel_none_iff (cfg : Config) (st : OCState) :
    get_dma_channel cfg st = none ↔
      ∀ x, x < 15 → x ∈ cfg.reserved_channels ∨ (st.channel_servos.lookup x).isSome := by
  rw [get_dma_channel, List.head?_eq_none_iff, List.filter_eq_nil_iff]
  constructor
  · intro h x hx
    have hnd : ¬ dmaFree cfg st x = true := h x (List.mem_range.mpr hx)
    rw [dmaFree, decide_eq_true_iff] at hnd
    by_cases hres : x ∈ cfg.reserved_channels
    · exact Or.inl hres
    · right
      rcases hlk : st.channel_servos.lookup x with _ | sv
      · exact absurd ⟨hres, hlk⟩ hnd
      · rfl
  · intro h a ha
    rw [dmaFree, decide_eq_true_iff]
    rintro ⟨hres, hnone⟩
    rcases h a (List.mem_range.mp ha) with hr | hs
    · exact hres hr
    · rw [hnone] at hs
      simp at hs

/-- A successful `new_dma_channel` call without an explicit channel comes
from a successful automatic pick and only extends `update_channels`. -/
theorem ndc_none_ok (cfg : Config) (st : OCState) (u : Option Nat) (c : Nat)
    (st' : OCState) (h : new_dma_channel cfg st u none = .ok (c, st')) :
    get_dma_channel cfg st = some c ∧
      st' = { st with update_channels := dictInsert u c st.update_channels } := by
  rw [new_dma_channel] at h
  rcases hg : get_dma_channel cfg st with _ | c0
  · rw [hg] at h
    exact absurd h (by simp)
  · rw [hg] at h
    simp only [Except.ok.injEq, Prod.mk.injEq] at h
    obtain ⟨hc, hst⟩ := h
    constructor
    · rw [hc]
    · rw [← hst, hc]

/-- `new_dma_channel` without an explicit channel raises `RuntimeError`
exactly when the automatic pick finds nothing. -/
theorem ndc_none_error_iff (cfg : Config) (st : OCState) (u : Option Nat) :
    new_dma_channel cfg st u none =
        .error (.runtimeError "no available dma channel") ↔
      get_dma_channel cfg st = none := by
  rw [new_dma_channel]
  rcases hg : get_dma_channel cfg st with _ | c0
  · simp
  · simp

/-- A successful `new_servo_channel` call performs an automatic pick, binds
it and registers the wrapped driver object. -/
theorem nsc_ok (cfg : Config) (st : OCState) (u : Option Nat) (sv : RPIOServo)
    (st' : OCState) (h : new_servo_channel cfg st u none = .ok (sv, st')) :
    ∃ c, get_dma_channel cfg st = some c ∧ sv = ⟨c, u⟩ ∧
      st' = { st with update_channels := dictInsert u c st.update_channels,
                      channel_servos := dictInsert c ⟨c, u⟩ st.channel_servos } := by
  rw [new_servo_channel] at h
  rcases hd : new_dma_channel cfg st u none with e | ⟨c, st1⟩
  · rw [hd] at h
    exact absurd h (by simp)
  · rw [hd] at h
    obtain ⟨hg, hst1⟩ := ndc_none_ok cfg st u c st1 hd
    simp only [Except.ok.injEq, Prod.mk.injEq] at h
    refine ⟨c, hg, h.1.symm, ?_⟩
    rw [← h.2, hst1]

/-- Binding a fresh channel `c` to cycle `u` and registering `⟨c, u⟩`
preserves the channel-bookkeeping invariant. -/
theorem chanInv_insert (st : OCState) (u : Option Nat) (c : Nat)
    (hinv : ChanInv st) :
    ChanInv { st with update_channels := dictInsert u c st.update_channels,
                      channel_servos := dictInsert c ⟨c, u⟩ st.channel_servos } := by
  constructor
  · intro u' c' h
    simp only at h
    rcases hu : ((some u' : Option Nat) == u) with _ | _
    · rw [dictInsert_lookup_ne u (some u') c _ hu] at h
      obtain ⟨sv, hsv⟩ := hinv.1 u' c' h
      rcases hc : (c' == c) with _ | _
      · exact ⟨sv, by simp only; rw [dictInsert_lookup_ne c c' _ _ hc]; exact hsv⟩
      · have hcc : c' = c := eq_of_beq hc
        subst hcc
        exact ⟨⟨c', u⟩, by simp only; exact dictInsert_lookup_self _ _ _⟩
    · have huu : (some u' : Option Nat) = u := eq_of_beq hu
      subst huu
      rw [dictInsert_lookup_self] at h
      have hcc : c = c' := by injection h
      subst hcc
      exact ⟨⟨c, some u'⟩, by simp only; exact dictInsert_lookup_self _ _ _⟩
  · intro c' sv h
    simp only at h
    rcases hc : (c' == c) with _ | _
    · rw [dictInsert_lookup_ne c c' _ _ hc] at h
      exact hinv.2 c' sv h
    · have hcc : c' = c := eq_of_beq hc
      subst hcc
      rw [dictInsert_lookup_self] at h
      have hsv : (⟨c', u⟩ : RPIOServo) = sv := by injection h
      rw [← hsv]

/-- Binding a channel to the `None` key (the `new_led` path) never affects
the bindings of genuine update cycles. -/
theorem chanInv_bind_none (st : OCState) (c : Nat) (hinv : ChanInv st) :
    ChanInv { st with update_channels := dictInsert none c st.update_channels } := by
  constructor
  · intro u' c' h
    simp only at h
    rw [dictInsert_lookup_ne none (some u') c _ (by rfl)] at h
    exact hinv.1 u' c' h
  · intro c' sv h
    exact hinv.2 c' sv h

/-- `get_servo_channel` preserves the channel-bookkeeping invariant. -/
theorem gsc_inv (cfg : Config) (st : OCState) (u : Option Nat) (sv : RPIOServo)
    (st' : OCState) (h : get_servo_channel cfg st u = .ok (sv, st'))
    (hinv : ChanInv st) : ChanInv st' := by
  rw [get_servo_channel.eq_def] at h
  split at h
  next sv0 heq =>
    injection h with h1
    injection h1 with h2 h3
    rw [← h3]
    exact hinv
  next heq =>
    split at h
    next u0 =>
      split at h
      · exact absurd h (by simp)
      next hck =>
        obtain ⟨c, _, _, hst⟩ := nsc_ok cfg st (some u0) sv st' h
        rw [hst]
        exact chanInv_insert st (some u0) c hinv
    next =>
      obtain ⟨c, _, _, hst⟩ := nsc_ok cfg st none sv st' h
      rw [hst]
      exact chanInv_insert st none c hinv

/-- Every reachable controller state satisfies the channel-bookkeeping
invariant. -/
theorem reach_inv (cfg : Config) (st : OCState) (h : Reach cfg st) :
    ChanInv st := by
  induction h with
  | init =>
      constructor
      · intro u c hlk
        simp [ocInit] at hlk
      · intro c sv hlk
        simp [ocInit] at hlk
  | servoStep st name pin update rom pb rev hst ih =>
      rcases hg : get_servo_channel cfg st (some update) with e | ⟨sv, st1⟩
      · have : (new_servo cfg st name pin update rom pb rev).2 = st := by
          rw [new_servo, hg]
        rw [this]
        exact ih
      · have : (new_servo cfg st name pin update rom pb rev).2 = st1 := by
          rw [new_servo, hg]
        rw [this]
        exact gsc_inv cfg st (some update) sv st1 hg ih
  | continuousStep st name pin pb rev hst ih =>
      rcases hg : get_servo_channel cfg st none with e | ⟨sv, st1⟩
      · have : (new_continuous_servo cfg st name pin pb rev).2 = st := by
          rw [new_continuous_servo, hg]
        rw [this]
        exact ih
      · have : (new_continuous_servo cfg st name pin pb rev).2 = st1 := by
          rw [new_continuous_servo, hg]
        rw [this]
        exact gsc_inv cfg st none sv st1 hg ih
  | ledStep st name pin hst ih =>
      rcases hh : st.update_channels.head? with _ | kv
      · rcases hd : new_dma_channel cfg st none none with e | ⟨c, st1⟩
        · have : (new_led cfg st name pin).2 = st := by
            rw [new_led, hh, hd]
          rw [this]
          exact ih
        · have : (new_led cfg st name pin).2 = st1 := by
            rw [new_led, hh, hd]
          rw [this]
          obtain ⟨_, hst1⟩ := ndc_none_ok cfg st none c st1 hd
          rw [hst1]
          exact chanInv_bind_none st c ih
      · have : (new_led cfg st name pin).2 = st := by
          rw [new_led, hh]
        rw [this]
        exact ih

/-! ### Claim theorems -/

/-- Claim C1 (code_bug evidence).  The claimed invariant — a channel id is
never bound to two different update cycles simultaneously, so an LED
allocation followed by a servo allocation for a distinct cycle yields two
distinct ids — fails on the code: `new_led` on a fresh controller allocates
channel 0 and binds it to the key `None` without registering it in
`channel_servos`, and since `get_dma_channel` judges availability only by
`channel_servos`, the subsequent `new_servo`-path request
`get_servo_channel(20000)` allocates channel 0 again.  The final state binds
channel 0 to both `None` and `20000`. -/
theorem led_servo_channel_collision :
    (new_led cfg0 ocInit "l" 5).2 =
        { update_channels := [(none, 0)], channel_servos := [], servos := [],
          leds := [] } ∧
    get_servo_channel cfg0
        { update_channels := [(none, 0)], channel_servos := [], servos := [],
          leds := [] } (some 20000) =
      .ok (⟨0, some 20000⟩,
        { update_channels := [(none, 0), (some 20000, 0)],
          channel_servos := [(0, ⟨0, some 20000⟩)], servos := [], leds := [] }) := by
  decide

/-- Claim C2.  `get_dma_channel` returns the lowest-numbered id below 15 that
is neither reserved nor in use (where "in use" is the code's own ledger:
membership in `channel_servos`), and concretely returns 0 under an empty
reserved set and 2 under reserved set `{0, 1}` on a fresh controller. -/
theorem get_dma_channel_lowest_free :
    (∀ (cfg : Config) (st : OCState) (c : Nat), get_dma_channel cfg st = some c →
        c < 15 ∧ c ∉ cfg.reserved_channels ∧ st.channel_servos.lookup c = none ∧
          ∀ k, k < c → k ∈ cfg.reserved_channels ∨ (st.channel_servos.lookup k).isSome) ∧
    get_dma_channel cfg0 ocInit = some 0 ∧ get_dma_channel cfg2 ocInit = some 2 := by
  exact ⟨get_dma_channel_spec, by decide, by decide⟩

/-- Witness for C2 at a concrete input: under reserved set `{0, 1}` on a
fresh controller the allocator returns 2, and the id 1 below it is indeed
reserved or in use. -/
theorem get_dma_channel_lowest_free_witness :
    (1 ∈ cfg2.reserved_channels ∨ (ocInit.channel_servos.lookup 1).isSome) ∧
      get_dma_channel cfg2 ocInit = some 2 := by
  have h := get_dma_channel_lowest_free.1 cfg2 ocInit 2 (by decide)
  exact ⟨h.2.2.2 1 (by decide), by decide⟩

/-- Claim C3.  In every reachable controller state, requesting the servo
channel of an update cycle `u` that is already bound to channel `c` returns
the registered channel servo for `c` (which records channel `c` itself) and
leaves the state — in particular the set of allocated channel ids —
completely unchanged. -/
theorem bound_cycle_channel_reuse (cfg : Config) (st : OCState) (u c : Nat)
    (hr : Reach cfg st) (hb : st.update_channels.lookup (some u) = some c) :
    ∃ sv : RPIOServo, st.channel_servos.lookup c = some sv ∧ sv.channel = c ∧
      get_servo_channel cfg st (some u) = .ok (sv, st) := by
  obtain ⟨h1, h2⟩ := reach_inv cfg st hr
  obtain ⟨sv, hsv⟩ := h1 u c hb
  refine ⟨sv, hsv, h2 c sv hsv, ?_⟩
  have hsl : servo_lookup st (some u) = some sv := by
    simp [servo_lookup, hb, hsv]
  rw [get_servo_channel.eq_def, hsl]

/-- Witness for C3 at a concrete input: the state reached by one `new_servo`
call with update cycle 20000 re-serves channel 0 for cycle 20000 without any
state change. -/
theorem bound_cycle_channel_reuse_witness :
    get_servo_channel cfg0 st1 (some 20000) = .ok (⟨0, some 20000⟩, st1) := by
  have hreach : Reach cfg0 st1 := by
    have h : Reach cfg0 (new_servo cfg0 ocInit "a" 5 20000 90 (1, 2) false).2 :=
      Reach.servoStep ocInit "a" 5 20000 90 (1, 2) false Reach.init
    have he : (new_servo cfg0 ocInit "a" 5 20000 90 (1, 2) false).2 = st1 := by
      decide
    rw [he] at h
    exact h
  obtain ⟨sv, hsv, hch, hget⟩ :=
    bound_cycle_channel_reuse cfg0 st1 20000 0 hreach (by decide)
  have hv : st1.channel_servos.lookup 0 = some ⟨0, some 20000⟩ := by decide
  rw [hv] at hsv
  injection hsv with hsv'
  rw [← hsv'] at hget
  exact hget

/-- Claim C4.  `new_dma_channel` (automatic pick) fails with the
`RuntimeError` for channel exhaustion exactly when every id below 15 is
reserved or registered in `channel_servos`; concretely, with reserved set
`{0, 1}` the 13 distinct update cycles 1000..1012 all obtain channels
(2..14) and the 14th distinct cycle 2000 fails with that error. -/
theorem channel_exhaustion :
    (∀ (cfg : Config) (st : OCState) (u : Option Nat),
        new_dma_channel cfg st u none =
            .error (.runtimeError "no available dma channel") ↔
          ∀ x, x < 15 → x ∈ cfg.reserved_channels ∨ (st.channel_servos.lookup x).isSome) ∧
    allocCycles cfg2 ocInit ((List.range 13).map (fun i => 1000 + i)) = .ok st13 ∧
    get_servo_channel cfg2 st13 (some 2000) =
      .error (.runtimeError "no available dma channel") := by
  refine ⟨fun cfg st u => ?_, by decide, by decide⟩
  rw [ndc_none_error_iff]
  exact get_dma_channel_none_iff cfg st

/-- Witness for C4 at a concrete input: in the exhausted state `st13` the
allocator refuses yet another distinct cycle. -/
theorem channel_exhaustion_witness :
    new_dma_channel cfg2 st13 (some 3000) none =
      .error (.runtimeError "no available dma channel") := by
  exact (channel_exhaustion.1 cfg2 st13 (some 3000)).mpr (by decide)

/-- Claim C5.  `claim_pin` fails with the already-claimed `AttributeError`
(the spec's `PinAlreadyClaimed`) precisely when the pin is present in
`config.used_pins`, leaving the claim set unchanged (the error carries no new
state); otherwise it records the claim, mapping the pin to the supplied
comment and touching no other entry or field, and issues the
direction-configuration side effect `RPIO.setup(pin, mode)` to the driver. -/
theorem claim_pin_spec :
    ∀ (config : Config) (pin : Nat) (io_type comment : String),
      ((config.used_pins.lookup pin).isSome →
          claim_pin pin config io_type comment =
            .error (.attributeError ("pin " ++ toString pin ++ " already claimed"))) ∧
      (config.used_pins.lookup pin = none →
          ∃ config' eff, claim_pin pin config io_type comment = .ok (config', eff) ∧
            config'.used_pins.lookup pin = some comment ∧
            (∀ q : Nat, (q == pin) = false →
                config'.used_pins.lookup q = config.used_pins.lookup q) ∧
            config'.echo = config.echo ∧
            config'.reserved_channels = config.reserved_channels ∧
            eff = PinEffect.setup pin
              (if io_type = "in" ∨ io_type = "IN" ∨ io_type = "RPIO.IN" then
                PinMode.input else PinMode.output)) := by
  intro config pin io_type comment
  constructor
  · intro h
    rw [claim_pin, if_pos h]
  · intro h
    refine ⟨{ config with used_pins := dictInsert pin comment config.used_pins },
      PinEffect.setup pin
        (if io_type = "in" ∨ io_type = "IN" ∨ io_type = "RPIO.IN" then PinMode.input
         else PinMode.output), ?_, ?_, ?_, rfl, rfl, rfl⟩
    · rw [claim_pin, if_neg (by rw [h]; simp)]
    · exact dictInsert_lookup_self pin comment config.used_pins
    · intro q hq
      exact dictInsert_lookup_ne pin q comment config.used_pins hq

/-- Witness for C5 at concrete inputs: claiming pin 5 twice fails with the
already-claimed error, and claiming a fresh pin 6 succeeds. -/
theorem claim_pin_spec_witness :
    claim_pin 5 ⟨[(5, "x")], false, []⟩ "in" "y" =
        .error (.attributeError "pin 5 already claimed") ∧
      (claim_pin 6 cfg0 "RPIO.IN" "enc").isOk = true := by
  constructor
  · exact (claim_pin_spec ⟨[(5, "x")], false, []⟩ 5 "in" "y").1 (by decide)
  · obtain ⟨c', e', hok, _⟩ := (claim_pin_spec cfg0 6 "RPIO.IN" "enc").2 (by decide)
    rw [hok]
    rfl

/-- Claim C6 (code_bug evidence).  The claimed pulse computation is
unreachable in the code: constructing a `Servo` raises `AttributeError`
(line 86 assigns the sorted bounds to the setterless `pulse` property), an
in-range `set 45` on even a hypothetical instance stores the angle and then
raises `RecursionError` inside `update` before any pulse is produced, and the
`pulse` property itself raises `RecursionError` instead of computing
`floor((pmin + ratio*(pmax-pmin))/increment)*increment` — so the claimed
quantized pulse (1.5 for the default example) is never computed. -/
theorem servo_init_and_pulse_crash :
    Servo.init "s" 5 90 (1, 2) false =
        .error (.attributeError "property pulse of Servo object has no setter") ∧
    (Servo.set ⟨"s", 5, 90, false, 0⟩ 45).1 =
        .error (.recursionError "maximum recursion depth exceeded") ∧
    ∀ s : Servo, s.pulseVal =
      .error (.recursionError "maximum recursion depth exceeded") := by
  refine ⟨rfl, ?_, fun s => rfl⟩
  rw [Servo.set,
    if_neg (not_not_intro ⟨by norm_num, show (45:ℚ) < 90 by norm_num⟩)]

/-- Claim C7 (code_bug evidence).  `ContinousServo` cannot be constructed:
its `__init__` passes an extra leading `self` to `ABCServo.__init__`, giving
6 positional arguments for 5 parameters, so construction raises `TypeError`
before the pulse bounds could be stored; consequently no state exists in
which the claimed pulse formula `(pmin + pmax)/2 + speed * (pmax - pmin)/2`
could evaluate (the `pulse` property also reads itself recursively). -/
theorem continuous_servo_init_crashes :
    ContinousServo.init "c" 5 (1, 2) false =
      .error (.typeError "init takes 5 positional arguments but 6 were given") := by
  decide

/-- Counterexample to claim C8 as stated: a `Servo.set` call with the
in-range angle 45 fails — with `RecursionError` from the self-referential
`pulse` property, not the invalid-value error — and that failure leaves the
stored angle changed from 0 to 45, so it is not true that on failure the
stored value is unchanged, nor that in-range values are accepted. -/
theorem servo_set_failure_mutation :
    (Servo.set ⟨"s", 5, 90, false, 0⟩ 45).1 =
        .error (.recursionError "maximum recursion depth exceeded") ∧
      (Servo.set ⟨"s", 5, 90, false, 0⟩ 45).2 = ⟨"s", 5, 90, false, 45⟩ := by
  rw [Servo.set,
    if_neg (not_not_intro ⟨by norm_num, show (45:ℚ) < 90 by norm_num⟩)]
  exact ⟨rfl, rfl⟩

/-- Claim C8 as amended.  `LED.set` and `ContinousServo.set` succeed exactly
on their open intervals (`(0, 100)`, `(-1, 1)`), boundary values failing,
raise the kind's `ValueError` producing no state otherwise, and store exactly
the supplied value on success; `Servo.set` raises its `ValueError` exactly
when the angle lies outside `(0, range)` and that validation failure leaves
the instance unchanged, but an in-range call never succeeds: it stores the
angle and then raises `RecursionError` from the self-referential `pulse`
property (and no `Servo` instance is constructible at all, see C6). -/
theorem set_validation_per_kind :
    (∀ (s : Servo) (a : ℚ),
        ((s.set a).1 = .error (.valueError "angle must be between 0 and range") ↔
          ¬(0 < a ∧ a < s.range)) ∧
        (¬(0 < a ∧ a < s.range) → (s.set a).2 = s) ∧
        ((0 < a ∧ a < s.range) →
            (s.set a).1 =
                .error (.recursionError "maximum recursion depth exceeded") ∧
              (s.set a).2 = { s with angle := a }) ∧
        (s.set a).1.isOk = false) ∧
    (∀ (s : ContinousServo) (v : ℚ),
        ((s.set v).isOk = true ↔ (-1 < v ∧ v < 1)) ∧
        (¬(-1 < v ∧ v < 1) →
            s.set v = .error (.valueError "speed must be between -1 and 1")) ∧
        (∀ s', s.set v = .ok s' → s'.speed = v ∧ s'.reverse = s.reverse)) ∧
    (∀ (l : LED) (b : ℚ),
        ((l.set b).isOk = true ↔ (0 < b ∧ b < 100)) ∧
        (¬(0 < b ∧ b < 100) →
            l.set b = .error (.valueError "brightness must be between 0 and 100")) ∧
        (∀ l', l.set b = .ok l' → l'.brightness = b ∧ l'.name = l.name ∧
            l'.pin = l.pin ∧ l'.channel = l.channel)) := by
  refine ⟨fun s a => ⟨?_, ?_, ?_, ?_⟩, fun s v => ⟨?_, ?_, ?_⟩,
    fun l b => ⟨?_, ?_, ?_⟩⟩
  · constructor
    · intro h
      by_cases hc : 0 < a ∧ a < s.range
      · rw [Servo.set, if_neg (not_not_intro hc)] at h
        simp at h
      · exact hc
    · intro hc
      rw [Servo.set, if_pos hc]
  · intro hc
    rw [Servo.set, if_pos hc]
  · intro hc
    rw [Servo.set, if_neg (not_not_intro hc)]
    exact ⟨rfl, rfl⟩
  · by_cases hc : 0 < a ∧ a < s.range
    · rw [Servo.set, if_neg (not_not_intro hc)]
      rfl
    · rw [Servo.set, if_pos hc]
      rfl
  · constructor
    · intro hok
      by_cases hc : -1 < v ∧ v < 1
      · exact hc
      · rw [ContinousServo.set, if_pos hc] at hok
        exact absurd hok (by simp [Except.isOk, Except.toBool])
    · intro hc
      rw [ContinousServo.set, if_neg (not_not_intro hc)]
      rfl
  · intro hc
    rw [ContinousServo.set, if_pos hc]
  · intro s' h
    by_cases hc : -1 < v ∧ v < 1
    · rw [ContinousServo.set, if_neg (not_not_intro hc)] at h
      injection h with h1
      rw [← h1]
      exact ⟨rfl, rfl⟩
    · rw [ContinousServo.set, if_pos hc] at h
      exact absurd h (by simp)
  · constructor
    · intro hok
      by_cases hc : 0 < b ∧ b < 100
      · exact hc
      · rw [LED.set, if_pos hc] at hok
        exact absurd hok (by simp [Except.isOk, Except.toBool])
    · intro hc
      rw [LED.set, if_neg (not_not_intro hc)]
      rfl
  · intro hc
    rw [LED.set, if_pos hc]
  · intro l' h
    by_cases hc : 0 < b ∧ b < 100
    · rw [LED.set, if_neg (not_not_intro hc)] at h
      injection h with h1
      rw [← h1]
      exact ⟨rfl, rfl, rfl, rfl⟩
    · rw [LED.set, if_pos hc] at h
      exact absurd h (by simp)

/-- Witness for the amended C8 at concrete boundary inputs: `set 90` on a
(hypothetical) servo of range 90 raises the invalid-angle error and leaves
the instance unchanged, `set 1` fails on a continuous servo, `set 100` fails
on an LED. -/
theorem set_validation_per_kind_witness :
    (Servo.set ⟨"s", 5, 90, false, 0⟩ 90).1 =
        .error (.valueError "angle must be between 0 and range") ∧
      (Servo.set ⟨"s", 5, 90, false, 0⟩ 90).2 = ⟨"s", 5, 90, false, 0⟩ ∧
      ContinousServo.set ⟨false, 0⟩ 1 =
        .error (.valueError "speed must be between -1 and 1") ∧
      (LED.init "l" 6 0).set 100 =
        .error (.valueError "brightness must be between 0 and 100") := by
  have hS := set_validation_per_kind.1 ⟨"s", 5, 90, false, 0⟩ 90
  have hcond : ¬((0:ℚ) < 90 ∧ (90:ℚ) < (⟨"s", 5, 90, false, 0⟩ : Servo).range) :=
    show ¬((0:ℚ) < 90 ∧ (90:ℚ) < 90) by norm_num
  exact ⟨hS.1.mpr hcond, hS.2.1 hcond,
    (set_validation_per_kind.2.1 ⟨false, 0⟩ 1).2.1 (by norm_num),
    (set_validation_per_kind.2.2 (LED.init "l" 6 0) 100).2.1 (by norm_num)⟩

/-- Claim C9 (code_bug evidence).  `new_servo` never registers the actuator
under the supplied name: the misordered `claim_pin` call raises
`AttributeError` first, and even the unreachable registry insertion of line
192 stores under the literal key "name", not the supplied name, so distinct
names would not be independently addressable. -/
theorem new_servo_registration_bug :
    (new_servo cfg0 ocInit "a" 5 20000 90 (1, 2) false).1 = .error claimPinCrash ∧
    (new_servo cfg0 ocInit "a" 5 20000 90 (1, 2) false).2.servos = [] ∧
    (servosInsertLine ocInit ⟨"a", 5, 90, false, 0⟩).servos.lookup "a" = none ∧
    (servosInsertLine ocInit ⟨"a", 5, 90, false, 0⟩).servos.lookup "name" =
      some ⟨"a", 5, 90, false, 0⟩ := by
  decide

/-- Counterexample to claim C10 as stated: the speed 0 that
`ContinousServo.__init__` (line 132) would store as the initial value lies
strictly inside the open interval `(-1, 1)` accepted by `set`, so a sequence
of successful `set` calls (here `set (1/2)` then `set 0`) restores the value
0 — the initial stored value is not outside the accepted interval and is
recoverable. -/
theorem continuous_servo_set_zero_ok :
    ContinousServo.set ⟨false, 0⟩ (1/2) = .ok ⟨false, 1/2⟩ ∧
      ContinousServo.set ⟨false, 1/2⟩ 0 = .ok ⟨false, 0⟩ := by
  constructor
  · rw [ContinousServo.set, if_neg (not_not_intro ⟨by norm_num, by norm_num⟩)]
  · rw [ContinousServo.set, if_neg (not_not_intro ⟨by norm_num, by norm_num⟩)]

/-- Claim C10 as amended.  `LED`'s initial brightness 0 lies outside the
accepted open interval `(0, 100)` and every successful `LED.set` stores a
value strictly inside it, so no sequence of successful `set` calls restores
0; `ContinousServo.set 0` succeeds from any state, restoring the speed 0 its
constructor would have stored (that value lies strictly inside `(-1, 1)`);
and `Servo` has no initial stored value at all: construction raises
`AttributeError` before line 88 could assign `angle = 0`, and no `Servo.set`
call ever returns successfully. -/
theorem initial_values_amended :
    (∀ (nm : String) (pin ch : Nat), (LED.init nm pin ch).brightness = 0) ∧
    (∀ (l : LED) (b : ℚ) (l' : LED), l.set b = .ok l' →
        0 < l'.brightness ∧ l'.brightness < 100) ∧
    (∀ (l : LED), l.set 0 = .error (.valueError "brightness must be between 0 and 100")) ∧
    (∀ s : ContinousServo, s.set 0 = .ok { s with speed := 0 }) ∧
    (∀ (nm : String) (pin : Nat) (r : ℚ) (pb : ℚ × ℚ) (rev : Bool),
        Servo.init nm pin r pb rev =
          .error (.attributeError "property pulse of Servo object has no setter")) ∧
    (∀ (s : Servo) (a : ℚ), (s.set a).1.isOk = false) := by
  refine ⟨fun nm pin ch => rfl, ?_, ?_, ?_, fun nm pin r pb rev => rfl, ?_⟩
  · intro l b l' h
    by_cases hc : 0 < b ∧ b < 100
    · rw [LED.set, if_neg (not_not_intro hc)] at h
      injection h with h1
      rw [← h1]
      exact hc
    · rw [LED.set, if_pos hc] at h
      exact absurd h (by simp)
  · intro l
    rw [LED.set, if_pos (by intro hc; exact absurd hc.1 (lt_irrefl 0))]
  · intro s
    rw [ContinousServo.set, if_neg (not_not_intro ⟨by norm_num, by norm_num⟩)]
  · intro s a
    by_cases hc : 0 < a ∧ a < s.range
    · rw [Servo.set, if_neg (not_not_intro hc)]
      rfl
    · rw [Servo.set, if_pos hc]
      rfl

/-- Witness for the amended C10 at concrete inputs: an LED refuses `set 0`, a
successful `set 50` lands strictly inside the interval, and a continuous
servo accepts `set 0`. -/
theorem initial_values_amended_witness :
    (LED.init "l" 6 0).set 0 =
        .error (.valueError "brightness must be between 0 and 100") ∧
      ContinousServo.set ⟨true, 0⟩ 0 = .ok ⟨true, 0⟩ ∧
      ((0:ℚ) < 50 ∧ (50:ℚ) < 100) := by
  have hset : (LED.init "l" 6 0).set 50 = .ok ⟨"l", 6, 0, 50⟩ := by
    rw [LED.set, if_neg (not_not_intro ⟨by norm_num, by norm_num⟩)]
    rfl
  exact ⟨initial_values_amended.2.2.1 (LED.init "l" 6 0),
    initial_values_amended.2.2.2.1 ⟨true, 0⟩,
    initial_values_amended.2.1 (LED.init "l" 6 0) 50 ⟨"l", 6, 0, 50⟩ hset⟩

end DogBot
